import Mathlib

/-!
Shallow embedding of the pricing core of `src/app-backend/app.py`:
input validation, the `MULTIPLIERS` table, the supplement and device pricing
formulas, and the category dispatch of the `/calculate` handler.

JSON scalar values are modelled as exact rationals or strings; Python float
arithmetic is modelled by rational arithmetic, Python's `round` (banker's
rounding, half to even) by `roundHalfEven`, and `math.ceil` by `qceil`.
Python's `float(s)` string coercion is modelled for decimal literals with an
optional sign and an optional fractional part (exponent forms, infinities,
and surrounding whitespace are not modelled).  Exceptions are modelled with
`Except`: `ValueError` (validation failures and failed `float` coercions)
and `ZeroDivisionError` (the margin division when the final price is zero).
-/

namespace PricingApp

/-- A JSON scalar as it reaches the pricing code: a number or a string. -/
inductive JValue where
  | num (q : ℚ)
  | str (s : String)
deriving DecidableEq

/-- A request payload: the JSON object, as a key/value list (first binding wins). -/
abbrev Data := List (String × JValue)

/-- `data[field]` / `data.get(field)` lookup. -/
def getField : Data → String → Option JValue
  | [], _ => none
  | (k, v) :: rest, f => if f = k then some v else getField rest f

/-- Remove a field from a payload (for stating the C7 omission property). -/
def eraseField : Data → String → Data
  | [], _ => []
  | (k, v) :: rest, f => if k = f then eraseField rest f else (k, v) :: eraseField rest f

/-- Set a field of a payload (for stating the C7 omission property). -/
def setField (d : Data) (f : String) (v : JValue) : Data :=
  (f, v) :: eraseField d f

/-- Numeric value of a decimal digit character. -/
def digitVal (c : Char) : ℕ := c.toNat - 48

/-- Value of a digit string, most significant digit first. -/
def natOfDigits (cs : List Char) : ℕ := cs.foldl (fun a c => 10 * a + digitVal c) 0

/-- Syntactic half of parsing an unsigned decimal literal (`"12"`, `"12.5"`,
`"12."`, `".5"`): integer-part value, fraction-part value, fraction length. -/
def parseUnsignedParts (cs : List Char) : Option (ℕ × ℕ × ℕ) :=
  let intPart := cs.takeWhile Char.isDigit
  match cs.dropWhile Char.isDigit with
  | [] => if intPart = [] then none else some (natOfDigits intPart, 0, 0)
  | c :: rest =>
    if c = '.' then
      let fracPart := rest.takeWhile Char.isDigit
      if rest.dropWhile Char.isDigit = [] then
        if intPart = [] ∧ fracPart = [] then none
        else some (natOfDigits intPart, natOfDigits fracPart, fracPart.length)
      else none
    else none

/-- Syntactic half of `float(s)` parsing: sign flag plus the unsigned parts. -/
def parseDecParts (s : String) : Option (Bool × ℕ × ℕ × ℕ) :=
  match s.data with
  | [] => none
  | c :: cs =>
    if c = '+' then (parseUnsignedParts cs).map (fun x => (false, x))
    else if c = '-' then (parseUnsignedParts cs).map (fun x => (true, x))
    else (parseUnsignedParts (c :: cs)).map (fun x => (false, x))

/-- Python `float(s)` for a string `s`, restricted to decimal literals with
an optional leading sign; `none` models the `ValueError` raised by `float`. -/
def parseFloat (s : String) : Option ℚ :=
  (parseDecParts s).map (fun x =>
    (if x.1 then (-1 : ℚ) else 1) * ((x.2.1 : ℚ) + (x.2.2.1 : ℚ) / 10 ^ x.2.2.2))

/-- Python `float(value)` for a JSON scalar: numbers pass through, strings are parsed. -/
def toFloat : JValue → Option ℚ
  | .num q => some q
  | .str s => parseFloat s

/-- One iteration of the validation loop (app.py lines 134-146): an absent
field, a value `float` cannot interpret, and a negative value each raise
`ValueError`.  The negative-value message is rewritten to
`"Invalid numeric value for ..."` because the inner `raise` is caught by the
surrounding `except (ValueError, TypeError)` clause. -/
def checkNumericField (d : Data) (field : String) : Except String Unit :=
  match getField d field with
  | none => .error ("Missing required field: " ++ field)
  | some v =>
    match toFloat v with
    | none => .error ("Invalid numeric value for " ++ field)
    | some q =>
      if q < 0 then .error ("Invalid numeric value for " ++ field) else .ok ()

/-- The validation loop over a required-field list; stops at the first failure. -/
def validateFields (d : Data) : List String → Except String Unit
  | [] => .ok ()
  | f :: fs => do
    checkNumericField d f
    validateFields d fs

/-- `validate_supplement_inputs` (app.py lines 131-147). -/
def validate_supplement_inputs (d : Data) : Except String Unit :=
  validateFields d ["purchasePrice", "fxRate", "weightGrams", "count", "dailyDose"]

/-- `validate_device_inputs` (app.py lines 149-164). -/
def validate_device_inputs (d : Data) : Except String Unit :=
  validateFields d ["purchasePrice", "fxRate", "lengthCm", "widthCm", "heightCm", "weightKg"]

/-- The `MULTIPLIERS` table (app.py lines 167-176). -/
def MULTIPLIERS : String → List (String × ℚ)
  | "maleSupport" => [("Yes", 1.25), ("No", 1)]
  | "productShape" =>
    [("Capsules/Tablets", 1), ("Softgels/Chews", 1), ("Powder/Creamy", 1),
     ("Gummies", 1.1), ("Liquid", 1.05), ("Injection", 1.2)]
  | "bottleSize" => [("Small", 0.9), ("Normal", 1), ("Big", 1.1), ("Massive", 1.2)]
  | "packingMaterial" => [("Plastic", 1), ("Glass", 1.12), ("Paper", 1.06)]
  | "importOrigin" => [("US", 1), ("UK", 1.25), ("EU", 1.1)]
  | _ => []

/-- Dict lookup inside one multiplier table. -/
def tableGet : List (String × ℚ) → String → Option ℚ
  | [], _ => none
  | (k, m) :: rest, s => if s = k then some m else tableGet rest s

/-- `MULTIPLIERS[attr].get(inputs.get(field), 1)`: a missing field, a
non-string value, and an unknown string each yield the neutral multiplier 1. -/
def multGet (table : List (String × ℚ)) (v : Option JValue) : ℚ :=
  match v with
  | some (.str s) => (tableGet table s).getD 1
  | _ => 1

/-- Exceptions the pricing formulas can raise. -/
inductive PyErr where
  | valueError (msg : String)
  | zeroDivisionError
deriving DecidableEq

/-- `float(inputs.get(field, default))`: `none` from `toFloat` is the
`ValueError` raised by `float` on a non-numeric string. -/
def getFloat (d : Data) (field : String) (default : ℚ) : Option ℚ :=
  match getField d field with
  | none => some default
  | some v => toFloat v

/-- `float(inputs.get(field, default))` in the `Except` monad. -/
def reqFloat (d : Data) (field : String) (default : ℚ) : Except PyErr ℚ :=
  match getFloat d field default with
  | none => .error (.valueError "could not convert string to float")
  | some q => .ok q

/-- `math.ceil` on a rational. -/
def qceil (x : ℚ) : ℤ := -(⌊-x⌋)

/-- Python `round(x)` to an integer: round half to even (banker's rounding). -/
def roundHalfEven (x : ℚ) : ℤ :=
  if x - ⌊x⌋ < 1/2 then ⌊x⌋
  else if 1/2 < x - ⌊x⌋ then ⌊x⌋ + 1
  else if ⌊x⌋ % 2 = 0 then ⌊x⌋ else ⌊x⌋ + 1

/-- Python `round(x, n)` for `n ≥ 0` decimal digits. -/
def pyRound (x : ℚ) (n : ℕ) : ℚ := (roundHalfEven (x * 10 ^ n) : ℚ) / 10 ^ n

/-- The price breakdown dict returned by both formulas. -/
structure Breakdown where
  baseCost : ℚ
  totalCost : ℚ
  finalPrice : ℚ
  profit : ℚ
  margin : ℚ
deriving DecidableEq

/-- `math.ceil(total_cost * (1 + margin_percent) / 50) * 50`
(app.py lines 230-234 and 274-278). -/
def price_from_total (total marginPercent : ℚ) : ℚ :=
  (qceil (total * (1 + marginPercent) / 50) : ℚ) * 50

/-- The shared return block of both formulas (app.py lines 236-242 and
280-286): the margin computation divides by `final_price`, raising
`ZeroDivisionError` when the final price is 0. -/
def finishBreakdown (baseRaw total marginPercent : ℚ) : Except PyErr Breakdown :=
  let final_price := price_from_total total marginPercent
  if final_price = 0 then .error .zeroDivisionError
  else .ok {
    baseCost := pyRound baseRaw 2
    totalCost := pyRound total 0
    finalPrice := pyRound final_price 0
    profit := pyRound (final_price - total) 0
    margin := pyRound ((final_price - total) / final_price * 100) 1 }

/-- `xfactor` (app.py lines 186-194). -/
def supplement_xfactor (inputs : Data) : ℚ :=
  multGet (MULTIPLIERS "productShape") (getField inputs "productShape") *
  multGet (MULTIPLIERS "packingMaterial") (getField inputs "packingMaterial") *
  multGet (MULTIPLIERS "bottleSize") (getField inputs "bottleSize") *
  multGet (MULTIPLIERS "maleSupport") (getField inputs "isMaleSupport") *
  multGet (MULTIPLIERS "importOrigin") (getField inputs "importFrom")

/-- `days_supply` (app.py line 210): guarded fallback to 30 when `dailyDose ≤ 0`. -/
def days_supply (count dailyDose : ℚ) : ℚ :=
  if dailyDose > 0 then count / dailyDose else 30

/-- `dose_factor` after the clamp (app.py lines 214-220). -/
def dose_factor (months_supply : ℚ) : ℚ :=
  min 3 (if months_supply > 0 then 3 / months_supply else 3)

/-- `dosage_adj` (app.py line 222). -/
def dosage_adj (months_supply : ℚ) : ℚ := 50 * (3 - dose_factor months_supply)

/-- The unrounded `total_cost` of the supplement formula (app.py lines
196-225); `months_supply = days_supply / 30`. -/
def supplement_total_cost (purchasePrice fxRate weightGrams count dailyDose xfactor : ℚ) : ℚ :=
  let base_product_egp := purchasePrice * xfactor * fxRate
  let weight_cost := weightGrams * 32 * fxRate / 1000
  let adjusted_cost := 380 + 1.4 * (base_product_egp + weight_cost)
  adjusted_cost + dosage_adj (days_supply count dailyDose / 30)

/-- `calculate_supplement_price` (app.py lines 178-242). -/
def calculate_supplement_price (inputs : Data) : Except PyErr Breakdown := do
  let purchasePrice ← reqFloat inputs "purchasePrice" 0
  let fxRate ← reqFloat inputs "fxRate" 50
  let weightGrams ← reqFloat inputs "weightGrams" 0
  let count ← reqFloat inputs "count" 0
  let dailyDose ← reqFloat inputs "dailyDose" 1
  let total_cost := supplement_total_cost purchasePrice fxRate weightGrams count dailyDose
    (supplement_xfactor inputs)
  finishBreakdown (purchasePrice * fxRate) total_cost 0.37

/-- `dim_factor` (app.py line 266). -/
def device_dim_factor (l w h weight : ℚ) : ℚ := 1 + l * w * h / 4000 + weight * 2

/-- The unrounded `total_cost` of the device formula (app.py lines 256-269). -/
def device_total_cost (purchasePrice fxRate l w h weight maleMult originMult : ℚ) : ℚ :=
  purchasePrice * fxRate * device_dim_factor l w h weight * maleMult * originMult

/-- `calculate_device_price` (app.py lines 244-286). -/
def calculate_device_price (inputs : Data) : Except PyErr Breakdown := do
  let purchasePrice ← reqFloat inputs "purchasePrice" 0
  let fxRate ← reqFloat inputs "fxRate" 50
  let l ← reqFloat inputs "lengthCm" 0
  let w ← reqFloat inputs "widthCm" 0
  let h ← reqFloat inputs "heightCm" 0
  let weight ← reqFloat inputs "weightKg" 0
  let maleMult := multGet (MULTIPLIERS "maleSupport") (getField inputs "isMaleSupport")
  let originMult := multGet (MULTIPLIERS "importOrigin") (getField inputs "importFrom")
  let total_cost := device_total_cost purchasePrice fxRate l w h weight maleMult originMult
  finishBreakdown (purchasePrice * fxRate) total_cost 0.15

/-- HTTP-level outcome of the `/calculate` handler (status and body shape). -/
inductive CalcResponse where
  | ok (b : Breakdown)
  | noData
  | invalidCategory
  | validationFailed (msg : String)
  | serverError
deriving DecidableEq

/-- The supplement arm of `handle_calculate`'s `try` block (app.py lines
300-320): `ValueError` maps to the 400 validation response,
`ZeroDivisionError` to the 500 response. -/
def supplement_branch (d : Data) : CalcResponse :=
  match validate_supplement_inputs d with
  | .error m => .validationFailed m
  | .ok _ =>
    match calculate_supplement_price d with
    | .error (.valueError m) => .validationFailed m
    | .error .zeroDivisionError => .serverError
    | .ok b => .ok b

/-- The device arm of `handle_calculate`'s `try` block. -/
def device_branch (d : Data) : CalcResponse :=
  match validate_device_inputs d with
  | .error m => .validationFailed m
  | .ok _ =>
    match calculate_device_price d with
    | .error (.valueError m) => .validationFailed m
    | .error .zeroDivisionError => .serverError
    | .ok b => .ok b

/-- `handle_calculate` (app.py lines 288-331), database persistence elided:
the empty payload is rejected first (`if not data`), then the category
defaults to `"supplement"` and is checked against the two known tags, and
only then does the matching validator/formula pair run. -/
def handle_calculate (d : Data) : CalcResponse :=
  if d = [] then .noData
  else
    let category := (getField d "category").getD (JValue.str "supplement")
    if category ≠ JValue.str "supplement" ∧ category ≠ JValue.str "device" then
      .invalidCategory
    else if category = JValue.str "supplement" then supplement_branch d
    else device_branch d

/-- `price` is the smallest multiple of 50 that is at least `x`. -/
def isLeastMultipleOf50Ge (x price : ℚ) : Prop :=
  (∃ k : ℤ, price = 50 * (k : ℚ)) ∧ x ≤ price ∧ ∀ m : ℤ, x ≤ 50 * (m : ℚ) → price ≤ 50 * (m : ℚ)

/-- The supplement scenario input of the specification. -/
def dSupEx : Data :=
  [("purchasePrice", .num 10), ("fxRate", .num 50), ("weightGrams", .num 30),
   ("count", .num 60), ("dailyDose", .num 2), ("productShape", .str "Capsules/Tablets"),
   ("packingMaterial", .str "Plastic"), ("bottleSize", .str "Normal"),
   ("isMaleSupport", .str "No"), ("importFrom", .str "US")]

/-- The device scenario input of the specification. -/
def dDevEx : Data :=
  [("purchasePrice", .num 100), ("fxRate", .num 50), ("lengthCm", .num 20),
   ("widthCm", .num 20), ("heightCm", .num 20), ("weightKg", .num 5),
   ("isMaleSupport", .str "No"), ("importFrom", .str "US")]

/-- A device input with zero purchase price: it passes validation but makes
the device formula's final price zero. -/
def dDevZero : Data :=
  [("purchasePrice", .num 0), ("fxRate", .num 50), ("lengthCm", .num 20),
   ("widthCm", .num 20), ("heightCm", .num 20), ("weightKg", .num 5)]

/-- A supplement input with `dailyDose = 0`. -/
def dSupDose0 : Data :=
  [("purchasePrice", .num 10), ("fxRate", .num 50), ("weightGrams", .num 30),
   ("count", .num 60), ("dailyDose", .num 0)]


/-! ### Basic lemmas about the embedding -/

theorem exbind_ok {α β ε : Type} (a : α) (f : α → Except ε β) :
    (Except.ok a >>= f) = f a := rfl

theorem exbind_error {α β ε : Type} (e : ε) (f : α → Except ε β) :
    ((Except.error e : Except ε α) >>= f) = Except.error e := rfl

theorem getField_eraseField (d : Data) (f g : String) :
    getField (eraseField d f) g = if g = f then none else getField d g := by
  induction d with
  | nil => simp [eraseField, getField]
  | cons kv rest ih =>
    obtain ⟨k, w⟩ := kv
    by_cases hkf : k = f
    · rw [show eraseField ((k, w) :: rest) f = eraseField rest f by
        simp [eraseField, hkf], ih]
      by_cases hgf : g = f
      · simp [hgf]
      · have hgk : ¬g = k := fun h => hgf (h.trans hkf)
        simp [hgf, getField, hgk]
    · rw [show eraseField ((k, w) :: rest) f = (k, w) :: eraseField rest f by
        simp [eraseField, hkf]]
      by_cases hgk : g = k
      · have hgf : ¬g = f := fun h => hkf (hgk.symm.trans h)
        simp [getField, hgk, hgf, hkf]
      · simp only [getField, if_neg hgk, ih]

theorem getField_setField (d : Data) (f g : String) (v : JValue) :
    getField (setField d f v) g = if g = f then some v else getField d g := by
  unfold setField
  rw [show getField ((f, v) :: eraseField d f) g
      = if g = f then some v else getField (eraseField d f) g from by simp [getField],
    getField_eraseField]
  by_cases hgf : g = f
  · simp [hgf]
  · simp [hgf]

theorem tableGet_eq_none (t : List (String × ℚ)) (s : String)
    (h : s ∉ t.map Prod.fst) : tableGet t s = none := by
  induction t with
  | nil => rfl
  | cons kv rest ih =>
    obtain ⟨k, m⟩ := kv
    simp only [List.map_cons, List.mem_cons] at h
    push_neg at h
    simp only [tableGet, if_neg h.1]
    exact ih h.2

theorem tableGet_mem_values {t : List (String × ℚ)} {s : String} {m : ℚ}
    (h : tableGet t s = some m) : m ∈ t.map Prod.snd := by
  induction t with
  | nil => simp [tableGet] at h
  | cons kv rest ih =>
    obtain ⟨k, m'⟩ := kv
    simp only [tableGet] at h
    by_cases hs : s = k
    · rw [if_pos hs] at h
      simp only [Option.some.injEq] at h
      simp [h]
    · rw [if_neg hs] at h
      simp [ih h]

theorem multGet_pos {t : List (String × ℚ)} (h : ∀ m ∈ t.map Prod.snd, 0 < m)
    (v : Option JValue) : 0 < multGet t v := by
  match v with
  | none => norm_num [multGet]
  | some (.num q) => norm_num [multGet]
  | some (.str s) =>
    simp only [multGet]
    cases hm : tableGet t s with
    | none => norm_num
    | some m => simpa using h m (tableGet_mem_values hm)

theorem multipliers_maleSupport_pos (v : Option JValue) :
    0 < multGet (MULTIPLIERS "maleSupport") v := by
  refine multGet_pos ?_ v
  norm_num [MULTIPLIERS, List.forall_mem_cons]

theorem multipliers_productShape_pos (v : Option JValue) :
    0 < multGet (MULTIPLIERS "productShape") v := by
  refine multGet_pos ?_ v
  norm_num [MULTIPLIERS, List.forall_mem_cons]

theorem multipliers_bottleSize_pos (v : Option JValue) :
    0 < multGet (MULTIPLIERS "bottleSize") v := by
  refine multGet_pos ?_ v
  norm_num [MULTIPLIERS, List.forall_mem_cons]

theorem multipliers_packingMaterial_pos (v : Option JValue) :
    0 < multGet (MULTIPLIERS "packingMaterial") v := by
  refine multGet_pos ?_ v
  norm_num [MULTIPLIERS, List.forall_mem_cons]

theorem multipliers_importOrigin_pos (v : Option JValue) :
    0 < multGet (MULTIPLIERS "importOrigin") v := by
  refine multGet_pos ?_ v
  norm_num [MULTIPLIERS, List.forall_mem_cons]

/-! ### Validator characterization -/

theorem checkNumericField_ok_iff (d : Data) (f : String) :
    checkNumericField d f = .ok () ↔
      ∃ q, 0 ≤ q ∧ (getField d f).bind toFloat = some q := by
  unfold checkNumericField
  cases hg : getField d f with
  | none => simp
  | some v =>
    simp only [Option.some_bind]
    cases ht : toFloat v with
    | none => simp
    | some q =>
      by_cases hq : q < 0
      · simp [if_pos hq, not_le.mpr hq]
      · simp [if_neg hq, not_lt.mp hq]

theorem validateFields_ok_iff (d : Data) (fs : List String) :
    validateFields d fs = .ok () ↔ ∀ f ∈ fs, checkNumericField d f = .ok () := by
  induction fs with
  | nil => simp [validateFields]
  | cons f fs ih =>
    simp only [validateFields]
    cases h : checkNumericField d f with
    | error e => simp [h, exbind_error, List.forall_mem_cons]
    | ok u =>
      cases u
      simp [h, exbind_ok, List.forall_mem_cons, ih]

theorem check_to_reqFloat {d : Data} {f : String}
    (h : checkNumericField d f = .ok ()) (c : ℚ) :
    ∃ q, 0 ≤ q ∧ reqFloat d f c = .ok q := by
  obtain ⟨q, hq, hsome⟩ := (checkNumericField_ok_iff d f).mp h
  refine ⟨q, hq, ?_⟩
  unfold reqFloat getFloat
  cases hg : getField d f with
  | none => rw [hg] at hsome; simp at hsome
  | some v => rw [hg] at hsome; simp only [Option.some_bind] at hsome; simp [hsome]

theorem reqFloat_nonneg_of_check {d : Data} {f : String} {c q : ℚ}
    (h : checkNumericField d f = .ok ()) (hr : reqFloat d f c = .ok q) : 0 ≤ q := by
  obtain ⟨q', hq', heq⟩ := check_to_reqFloat h c
  rw [heq] at hr
  cases hr
  exact hq'

/-! ### Rounding and pricing arithmetic -/

theorem qceil_eq (x : ℚ) : qceil x = ⌈x⌉ := by
  simp [qceil, Int.floor_neg]

theorem roundHalfEven_intCast (n : ℤ) : roundHalfEven (n : ℚ) = n := by
  simp [roundHalfEven]

theorem roundHalfEven_le (x : ℚ) : (roundHalfEven x : ℚ) ≤ x + 1/2 := by
  have hf := Int.floor_le x
  unfold roundHalfEven
  split_ifs with h1 h2 h3
  · linarith
  · push_cast; linarith
  · linarith
  · push_cast; linarith [not_lt.mp h1]

theorem pyRound_zero (x : ℚ) : pyRound x 0 = (roundHalfEven x : ℚ) := by
  simp [pyRound]

theorem price_from_total_intCast (t mp : ℚ) :
    price_from_total t mp = ((⌈t * (1 + mp) / 50⌉ * 50 : ℤ) : ℚ) := by
  rw [price_from_total, qceil_eq]
  push_cast
  ring

theorem pyRound_price_from_total (t mp : ℚ) :
    pyRound (price_from_total t mp) 0 = price_from_total t mp := by
  rw [pyRound_zero, price_from_total_intCast, roundHalfEven_intCast]

theorem le_price_from_total (t mp : ℚ) : t * (1 + mp) ≤ price_from_total t mp := by
  rw [price_from_total, qceil_eq]
  have h := Int.le_ceil (t * (1 + mp) / 50)
  linarith

theorem price_from_total_least (t mp : ℚ) (m : ℤ) (h : t * (1 + mp) ≤ 50 * m) :
    price_from_total t mp ≤ 50 * (m : ℚ) := by
  rw [price_from_total, qceil_eq]
  have hm : t * (1 + mp) / 50 ≤ (m : ℚ) := by linarith
  have hc : ⌈t * (1 + mp) / 50⌉ ≤ m := Int.ceil_le.mpr hm
  have : ((⌈t * (1 + mp) / 50⌉ : ℤ) : ℚ) ≤ (m : ℚ) := Int.cast_le.mpr hc
  linarith

theorem price_from_total_multiple (t mp : ℚ) :
    ∃ k : ℤ, price_from_total t mp = 50 * (k : ℚ) := by
  refine ⟨⌈t * (1 + mp) / 50⌉, ?_⟩
  rw [price_from_total, qceil_eq]
  ring

theorem price_from_total_pos (t mp : ℚ) (h : 0 < t * (1 + mp)) :
    0 < price_from_total t mp :=
  lt_of_lt_of_le h (le_price_from_total t mp)

theorem price_from_total_ge_550 {t : ℚ} (h : 380 ≤ t) :
    550 ≤ price_from_total t 0.37 := by
  rw [price_from_total, qceil_eq]
  have h10 : (10 : ℚ) < t * (1 + 0.37) / 50 := by nlinarith
  have hc : (10 : ℤ) < ⌈t * (1 + 0.37) / 50⌉ := Int.lt_ceil.mpr (by exact_mod_cast h10)
  have h11 : (11 : ℚ) ≤ (⌈t * (1 + 0.37) / 50⌉ : ℚ) := by exact_mod_cast hc
  linarith

theorem price_from_total_zero (mp : ℚ) : price_from_total 0 mp = 0 := by
  norm_num [price_from_total, qceil]

/-! ### Bounds on the formulas -/

theorem dose_factor_le_three (m : ℚ) : dose_factor m ≤ 3 := min_le_left _ _

theorem dosage_adj_nonneg (m : ℚ) : 0 ≤ dosage_adj m := by
  have := dose_factor_le_three m
  unfold dosage_adj
  linarith

theorem supplement_total_cost_ge {p fx w c dd xf : ℚ}
    (hp : 0 ≤ p) (hfx : 0 ≤ fx) (hw : 0 ≤ w) (hxf : 0 ≤ xf) :
    380 ≤ supplement_total_cost p fx w c dd xf := by
  have h1 : 0 ≤ p * xf * fx := mul_nonneg (mul_nonneg hp hxf) hfx
  have h2 : 0 ≤ w * 32 * fx / 1000 :=
    div_nonneg (mul_nonneg (mul_nonneg hw (by norm_num)) hfx) (by norm_num)
  have h3 := dosage_adj_nonneg (days_supply c dd / 30)
  unfold supplement_total_cost
  have h4 : 0 ≤ 1.4 * (p * xf * fx + w * 32 * fx / 1000) :=
    mul_nonneg (by norm_num) (add_nonneg h1 h2)
  linarith

theorem supplement_xfactor_pos (d : Data) : 0 < supplement_xfactor d := by
  unfold supplement_xfactor
  exact mul_pos (mul_pos (mul_pos (mul_pos
    (multipliers_productShape_pos _) (multipliers_packingMaterial_pos _))
    (multipliers_bottleSize_pos _)) (multipliers_maleSupport_pos _))
    (multipliers_importOrigin_pos _)

theorem device_dim_factor_ge_one {l w h wt : ℚ}
    (hl : 0 ≤ l) (hw : 0 ≤ w) (hh : 0 ≤ h) (hwt : 0 ≤ wt) :
    1 ≤ device_dim_factor l w h wt := by
  have h1 : 0 ≤ l * w * h / 4000 :=
    div_nonneg (mul_nonneg (mul_nonneg hl hw) hh) (by norm_num)
  unfold device_dim_factor
  linarith

theorem device_total_cost_nonneg {p fx l w h wt m o : ℚ}
    (hp : 0 ≤ p) (hfx : 0 ≤ fx) (hl : 0 ≤ l) (hw : 0 ≤ w) (hh : 0 ≤ h)
    (hwt : 0 ≤ wt) (hm : 0 ≤ m) (ho : 0 ≤ o) :
    0 ≤ device_total_cost p fx l w h wt m o := by
  have hd : (0:ℚ) ≤ device_dim_factor l w h wt :=
    le_trans zero_le_one (device_dim_factor_ge_one hl hw hh hwt)
  exact mul_nonneg (mul_nonneg (mul_nonneg (mul_nonneg hp hfx) hd) hm) ho

theorem device_total_cost_pos {p fx l w h wt m o : ℚ}
    (hpfx : 0 < p * fx) (hl : 0 ≤ l) (hw : 0 ≤ w) (hh : 0 ≤ h)
    (hwt : 0 ≤ wt) (hm : 0 < m) (ho : 0 < o) :
    0 < device_total_cost p fx l w h wt m o := by
  have hd : (0:ℚ) < device_dim_factor l w h wt :=
    lt_of_lt_of_le zero_lt_one (device_dim_factor_ge_one hl hw hh hwt)
  exact mul_pos (mul_pos (mul_pos hpfx hd) hm) ho

/-! ### Unfolding the formula functions -/

theorem calculate_supplement_eq {d : Data} {p fx w c dd : ℚ}
    (h1 : reqFloat d "purchasePrice" 0 = .ok p)
    (h2 : reqFloat d "fxRate" 50 = .ok fx)
    (h3 : reqFloat d "weightGrams" 0 = .ok w)
    (h4 : reqFloat d "count" 0 = .ok c)
    (h5 : reqFloat d "dailyDose" 1 = .ok dd) :
    calculate_supplement_price d =
      finishBreakdown (p * fx)
        (supplement_total_cost p fx w c dd (supplement_xfactor d)) 0.37 := by
  simp only [calculate_supplement_price, h1, h2, h3, h4, h5, exbind_ok]

theorem calculate_device_eq {d : Data} {p fx l w h wt : ℚ}
    (h1 : reqFloat d "purchasePrice" 0 = .ok p)
    (h2 : reqFloat d "fxRate" 50 = .ok fx)
    (h3 : reqFloat d "lengthCm" 0 = .ok l)
    (h4 : reqFloat d "widthCm" 0 = .ok w)
    (h5 : reqFloat d "heightCm" 0 = .ok h)
    (h6 : reqFloat d "weightKg" 0 = .ok wt) :
    calculate_device_price d =
      finishBreakdown (p * fx)
        (device_total_cost p fx l w h wt
          (multGet (MULTIPLIERS "maleSupport") (getField d "isMaleSupport"))
          (multGet (MULTIPLIERS "importOrigin") (getField d "importFrom"))) 0.15 := by
  simp only [calculate_device_price, h1, h2, h3, h4, h5, h6, exbind_ok]

theorem finishBreakdown_of_ne {b t mp : ℚ} (h : price_from_total t mp ≠ 0) :
    finishBreakdown b t mp = .ok {
      baseCost := pyRound b 2
      totalCost := pyRound t 0
      finalPrice := pyRound (price_from_total t mp) 0
      profit := pyRound (price_from_total t mp - t) 0
      margin := pyRound ((price_from_total t mp - t) / price_from_total t mp * 100) 1 } := by
  simp [finishBreakdown, h]

theorem finishBreakdown_of_zero (b : ℚ) {t mp : ℚ} (h : price_from_total t mp = 0) :
    finishBreakdown b t mp = .error .zeroDivisionError := by
  simp [finishBreakdown, h]

theorem finishBreakdown_ok_inv {b t mp : ℚ} {bd : Breakdown}
    (h : finishBreakdown b t mp = .ok bd) :
    price_from_total t mp ≠ 0 ∧ bd = {
      baseCost := pyRound b 2
      totalCost := pyRound t 0
      finalPrice := pyRound (price_from_total t mp) 0
      profit := pyRound (price_from_total t mp - t) 0
      margin := pyRound ((price_from_total t mp - t) / price_from_total t mp * 100) 1 } := by
  by_cases h0 : price_from_total t mp = 0
  · rw [finishBreakdown_of_zero b h0] at h
    exact absurd h (by simp)
  · rw [finishBreakdown_of_ne h0] at h
    exact ⟨h0, (Except.ok.inj h).symm⟩

/-! ### Consequences of a passed validation -/

theorem validate_sup_fields {d : Data} (hv : validate_supplement_inputs d = .ok ()) :
    ∃ p fx w c dd : ℚ,
      0 ≤ p ∧ 0 ≤ fx ∧ 0 ≤ w ∧ 0 ≤ c ∧ 0 ≤ dd ∧
      reqFloat d "purchasePrice" 0 = .ok p ∧ reqFloat d "fxRate" 50 = .ok fx ∧
      reqFloat d "weightGrams" 0 = .ok w ∧ reqFloat d "count" 0 = .ok c ∧
      reqFloat d "dailyDose" 1 = .ok dd := by
  have hall := (validateFields_ok_iff d _).mp hv
  obtain ⟨p, hp0, hp⟩ := check_to_reqFloat (hall "purchasePrice" (by simp)) 0
  obtain ⟨fx, hfx0, hfx⟩ := check_to_reqFloat (hall "fxRate" (by simp)) 50
  obtain ⟨w, hw0, hw⟩ := check_to_reqFloat (hall "weightGrams" (by simp)) 0
  obtain ⟨c, hc0, hc⟩ := check_to_reqFloat (hall "count" (by simp)) 0
  obtain ⟨dd, hdd0, hdd⟩ := check_to_reqFloat (hall "dailyDose" (by simp)) 1
  exact ⟨p, fx, w, c, dd, hp0, hfx0, hw0, hc0, hdd0, hp, hfx, hw, hc, hdd⟩

theorem validate_dev_fields {d : Data} (hv : validate_device_inputs d = .ok ()) :
    ∃ p fx l w h wt : ℚ,
      0 ≤ p ∧ 0 ≤ fx ∧ 0 ≤ l ∧ 0 ≤ w ∧ 0 ≤ h ∧ 0 ≤ wt ∧
      reqFloat d "purchasePrice" 0 = .ok p ∧ reqFloat d "fxRate" 50 = .ok fx ∧
      reqFloat d "lengthCm" 0 = .ok l ∧ reqFloat d "widthCm" 0 = .ok w ∧
      reqFloat d "heightCm" 0 = .ok h ∧ reqFloat d "weightKg" 0 = .ok wt := by
  have hall := (validateFields_ok_iff d _).mp hv
  obtain ⟨p, hp0, hp⟩ := check_to_reqFloat (hall "purchasePrice" (by simp)) 0
  obtain ⟨fx, hfx0, hfx⟩ := check_to_reqFloat (hall "fxRate" (by simp)) 50
  obtain ⟨l, hl0, hl⟩ := check_to_reqFloat (hall "lengthCm" (by simp)) 0
  obtain ⟨w, hw0, hw⟩ := check_to_reqFloat (hall "widthCm" (by simp)) 0
  obtain ⟨h, hh0, hh⟩ := check_to_reqFloat (hall "heightCm" (by simp)) 0
  obtain ⟨wt, hwt0, hwt⟩ := check_to_reqFloat (hall "weightKg" (by simp)) 0
  exact ⟨p, fx, l, w, h, wt, hp0, hfx0, hl0, hw0, hh0, hwt0, hp, hfx, hl, hw, hh, hwt⟩

/-- On any validated supplement input the formula completes: the total cost
is at least 380, so the final price is at least 550 and the margin division
is safe. -/
theorem sup_validated_main {d : Data} (hv : validate_supplement_inputs d = .ok ()) :
    ∃ p fx w c dd : ℚ, ∃ b : Breakdown,
      reqFloat d "purchasePrice" 0 = .ok p ∧ reqFloat d "fxRate" 50 = .ok fx ∧
      reqFloat d "weightGrams" 0 = .ok w ∧ reqFloat d "count" 0 = .ok c ∧
      reqFloat d "dailyDose" 1 = .ok dd ∧
      380 ≤ supplement_total_cost p fx w c dd (supplement_xfactor d) ∧
      calculate_supplement_price d = .ok b ∧
      b.finalPrice =
        price_from_total (supplement_total_cost p fx w c dd (supplement_xfactor d)) 0.37 ∧
      b.totalCost =
        ((roundHalfEven (supplement_total_cost p fx w c dd (supplement_xfactor d)) : ℤ) : ℚ) ∧
      550 ≤ b.finalPrice := by
  obtain ⟨p, fx, w, c, dd, hp0, hfx0, hw0, _, _, hp, hfx, hw, hc, hdd⟩ := validate_sup_fields hv
  set t := supplement_total_cost p fx w c dd (supplement_xfactor d) with ht
  have h380 : 380 ≤ t :=
    supplement_total_cost_ge hp0 hfx0 hw0 (le_of_lt (supplement_xfactor_pos d))
  have h550 : 550 ≤ price_from_total t 0.37 := price_from_total_ge_550 h380
  have hne : price_from_total t 0.37 ≠ 0 := by
    intro h0
    rw [h0] at h550
    norm_num at h550
  have hcalc := (calculate_supplement_eq hp hfx hw hc hdd).trans (finishBreakdown_of_ne hne)
  refine ⟨p, fx, w, c, dd, _, hp, hfx, hw, hc, hdd, h380, hcalc, ?_, ?_, ?_⟩
  · simp [pyRound_price_from_total]
  · simp [pyRound_zero]
  · simpa [pyRound_price_from_total] using h550

/-- On any validated device input whose base cost `purchasePrice * fxRate`
is positive, the formula completes. -/
theorem dev_validated_main {d : Data} {p fx : ℚ}
    (hv : validate_device_inputs d = .ok ())
    (hp : reqFloat d "purchasePrice" 0 = .ok p)
    (hfx : reqFloat d "fxRate" 50 = .ok fx)
    (hpos : 0 < p * fx) :
    ∃ b, calculate_device_price d = .ok b := by
  obtain ⟨p', fx', l, w, h, wt, _, _, hl0, hw0, hh0, hwt0, hp', hfx', hl, hw, hh, hwt⟩ :=
    validate_dev_fields hv
  rw [hp'] at hp
  rw [hfx'] at hfx
  cases hp
  cases hfx
  set male := multGet (MULTIPLIERS "maleSupport") (getField d "isMaleSupport") with hm
  set origin := multGet (MULTIPLIERS "importOrigin") (getField d "importFrom") with ho
  have ht : 0 < device_total_cost p fx l w h wt male origin :=
    device_total_cost_pos hpos hl0 hw0 hh0 hwt0
      (multipliers_maleSupport_pos _) (multipliers_importOrigin_pos _)
  have hq : 0 < device_total_cost p fx l w h wt male origin * (1 + 0.15) := by nlinarith
  have hne : price_from_total (device_total_cost p fx l w h wt male origin) 0.15 ≠ 0 :=
    ne_of_gt (price_from_total_pos _ _ hq)
  exact ⟨_, (calculate_device_eq hp' hfx' hl hw hh hwt).trans (finishBreakdown_of_ne hne)⟩

/-! ### Concrete scenario inputs and their evaluation -/

theorem validate_sup_ex : validate_supplement_inputs dSupEx = .ok () := by
  simp [validate_supplement_inputs, validateFields, checkNumericField, getField,
    toFloat, dSupEx, exbind_ok]
  norm_num [exbind_ok]

theorem validate_dev_ex : validate_device_inputs dDevEx = .ok () := by
  simp [validate_device_inputs, validateFields, checkNumericField, getField,
    toFloat, dDevEx, exbind_ok]
  norm_num [exbind_ok]

theorem validate_dev_zero : validate_device_inputs dDevZero = .ok () := by
  simp [validate_device_inputs, validateFields, checkNumericField, getField,
    toFloat, dDevZero, exbind_ok]
  norm_num [exbind_ok]

theorem validate_sup_dose0 : validate_supplement_inputs dSupDose0 = .ok () := by
  simp [validate_supplement_inputs, validateFields, checkNumericField, getField,
    toFloat, dSupDose0, exbind_ok]
  norm_num [exbind_ok]

theorem sup_scenario_eval :
    calculate_supplement_price dSupEx = .ok ⟨500, 1147, 1600, 453, 283/10⟩ := by
  have h1 : reqFloat dSupEx "purchasePrice" 0 = .ok 10 := by
    simp [reqFloat, getFloat, getField, toFloat, dSupEx]
  have h2 : reqFloat dSupEx "fxRate" 50 = .ok 50 := by
    simp [reqFloat, getFloat, getField, toFloat, dSupEx]
  have h3 : reqFloat dSupEx "weightGrams" 0 = .ok 30 := by
    simp [reqFloat, getFloat, getField, toFloat, dSupEx]
  have h4 : reqFloat dSupEx "count" 0 = .ok 60 := by
    simp [reqFloat, getFloat, getField, toFloat, dSupEx]
  have h5 : reqFloat dSupEx "dailyDose" 1 = .ok 2 := by
    simp [reqFloat, getFloat, getField, toFloat, dSupEx]
  have hxf : supplement_xfactor dSupEx = 1 := by
    simp [supplement_xfactor, multGet, MULTIPLIERS, tableGet, getField, dSupEx]
  have htc : supplement_total_cost 10 50 30 60 2 1 = 5736/5 := by
    norm_num [supplement_total_cost, days_supply, dose_factor, dosage_adj, min_def]
  simp only [calculate_supplement_price, h1, h2, h3, h4, h5, exbind_ok, hxf, htc]
  norm_num [finishBreakdown, price_from_total, qceil, pyRound, roundHalfEven,
    Breakdown.mk.injEq, Int.fract]

theorem dev_scenario_eval :
    calculate_device_price dDevEx = .ok ⟨5000, 65000, 74750, 9750, 13⟩ := by
  have h1 : reqFloat dDevEx "purchasePrice" 0 = .ok 100 := by
    simp [reqFloat, getFloat, getField, toFloat, dDevEx]
  have h2 : reqFloat dDevEx "fxRate" 50 = .ok 50 := by
    simp [reqFloat, getFloat, getField, toFloat, dDevEx]
  have h3 : reqFloat dDevEx "lengthCm" 0 = .ok 20 := by
    simp [reqFloat, getFloat, getField, toFloat, dDevEx]
  have h4 : reqFloat dDevEx "widthCm" 0 = .ok 20 := by
    simp [reqFloat, getFloat, getField, toFloat, dDevEx]
  have h5 : reqFloat dDevEx "heightCm" 0 = .ok 20 := by
    simp [reqFloat, getFloat, getField, toFloat, dDevEx]
  have h6 : reqFloat dDevEx "weightKg" 0 = .ok 5 := by
    simp [reqFloat, getFloat, getField, toFloat, dDevEx]
  have hm : multGet (MULTIPLIERS "maleSupport") (getField dDevEx "isMaleSupport") = 1 := by
    simp [multGet, MULTIPLIERS, tableGet, getField, dDevEx]
  have ho : multGet (MULTIPLIERS "importOrigin") (getField dDevEx "importFrom") = 1 := by
    simp [multGet, MULTIPLIERS, tableGet, getField, dDevEx]
  have htc : device_total_cost 100 50 20 20 20 5 1 1 = 65000 := by
    norm_num [device_total_cost, device_dim_factor]
  simp only [calculate_device_price, h1, h2, h3, h4, h5, h6, exbind_ok, hm, ho, htc]
  norm_num [finishBreakdown, price_from_total, qceil, pyRound, roundHalfEven,
    Breakdown.mk.injEq, Int.fract]

theorem dev_zero_eval :
    calculate_device_price dDevZero = .error .zeroDivisionError := by
  have h1 : reqFloat dDevZero "purchasePrice" 0 = .ok 0 := by
    simp [reqFloat, getFloat, getField, toFloat, dDevZero]
  have h2 : reqFloat dDevZero "fxRate" 50 = .ok 50 := by
    simp [reqFloat, getFloat, getField, toFloat, dDevZero]
  have h3 : reqFloat dDevZero "lengthCm" 0 = .ok 20 := by
    simp [reqFloat, getFloat, getField, toFloat, dDevZero]
  have h4 : reqFloat dDevZero "widthCm" 0 = .ok 20 := by
    simp [reqFloat, getFloat, getField, toFloat, dDevZero]
  have h5 : reqFloat dDevZero "heightCm" 0 = .ok 20 := by
    simp [reqFloat, getFloat, getField, toFloat, dDevZero]
  have h6 : reqFloat dDevZero "weightKg" 0 = .ok 5 := by
    simp [reqFloat, getFloat, getField, toFloat, dDevZero]
  have hm : multGet (MULTIPLIERS "maleSupport") (getField dDevZero "isMaleSupport") = 1 := by
    simp [multGet, MULTIPLIERS, tableGet, getField, dDevZero]
  have ho : multGet (MULTIPLIERS "importOrigin") (getField dDevZero "importFrom") = 1 := by
    simp [multGet, MULTIPLIERS, tableGet, getField, dDevZero]
  have htc : device_total_cost 0 50 20 20 20 5 1 1 = 0 := by
    norm_num [device_total_cost, device_dim_factor]
  simp only [calculate_device_price, h1, h2, h3, h4, h5, h6, exbind_ok, hm, ho, htc]
  rw [finishBreakdown_of_zero _ (price_from_total_zero 0.15)]

/-! ### The claims -/

/-- C1 (counterexample): the claim "every input that passes the validator
makes the formula return a breakdown without raising" is false for the
device category: `dDevZero` (purchasePrice 0, all other required fields
valid) passes `validate_device_inputs`, yet `calculate_device_price` raises
`ZeroDivisionError` in the margin division, because the final price is 0. -/
theorem c1_counterexample :
    validate_device_inputs dDevZero = .ok () ∧
    calculate_device_price dDevZero = .error .zeroDivisionError :=
  ⟨validate_dev_zero, dev_zero_eval⟩

/-- C1 (amended): on every validated supplement input
`calculate_supplement_price` returns a breakdown without raising; on every
validated device input `calculate_device_price` returns a breakdown without
raising provided the base cost `purchasePrice * fxRate` is positive (the
zero base cost case divides by a zero final price). -/
theorem c1_amended_totality (d : Data) :
    (validate_supplement_inputs d = .ok () →
      ∃ b, calculate_supplement_price d = .ok b)
    ∧ (∀ p fx : ℚ, validate_device_inputs d = .ok () →
        reqFloat d "purchasePrice" 0 = .ok p → reqFloat d "fxRate" 50 = .ok fx →
        0 < p * fx → ∃ b, calculate_device_price d = .ok b) := by
  constructor
  · intro hv
    obtain ⟨p, fx, w, c, dd, b, _, _, _, _, _, _, hcalc, _, _, _⟩ := sup_validated_main hv
    exact ⟨b, hcalc⟩
  · intro p fx hv hp hfx hpos
    exact dev_validated_main hv hp hfx hpos

theorem c1_witness :
    (validate_supplement_inputs dSupEx = .ok () ∧
      ∃ b, calculate_supplement_price dSupEx = .ok b)
    ∧ (validate_device_inputs dDevEx = .ok () ∧ 0 < (100 : ℚ) * 50 ∧
      ∃ b, calculate_device_price dDevEx = .ok b) := by
  have hp : reqFloat dDevEx "purchasePrice" 0 = .ok 100 := by
    simp [reqFloat, getFloat, getField, toFloat, dDevEx]
  have hfx : reqFloat dDevEx "fxRate" 50 = .ok 50 := by
    simp [reqFloat, getFloat, getField, toFloat, dDevEx]
  exact ⟨⟨validate_sup_ex, (c1_amended_totality dSupEx).1 validate_sup_ex⟩,
    validate_dev_ex, by norm_num,
    (c1_amended_totality dDevEx).2 100 50 validate_dev_ex hp hfx (by norm_num)⟩

/-- C4: on a validated supplement input whose coerced `dailyDose` is exactly
0, the formula does not raise, and the guard makes `days_supply` the fixed
fallback 30 (so `months_supply = 1`) instead of computing `count / dailyDose`. -/
theorem c4_daily_dose_zero (d : Data)
    (hv : validate_supplement_inputs d = .ok ())
    (_hdd : reqFloat d "dailyDose" 1 = .ok 0) :
    (∃ b, calculate_supplement_price d = .ok b)
    ∧ (∀ c : ℚ, days_supply c 0 = 30 ∧ days_supply c 0 / 30 = 1) := by
  refine ⟨?_, fun c => ⟨?_, ?_⟩⟩
  · obtain ⟨p, fx, w, c, dd, b, _, _, _, _, _, _, hcalc, _, _, _⟩ := sup_validated_main hv
    exact ⟨b, hcalc⟩
  · simp [days_supply]
  · simp [days_supply]

theorem c4_witness :
    validate_supplement_inputs dSupDose0 = .ok () ∧
    reqFloat dSupDose0 "dailyDose" 1 = .ok 0 ∧
    ((∃ b, calculate_supplement_price dSupDose0 = .ok b)
      ∧ (∀ c : ℚ, days_supply c 0 = 30 ∧ days_supply c 0 / 30 = 1)) := by
  have hdd : reqFloat dSupDose0 "dailyDose" 1 = .ok 0 := by
    simp [reqFloat, getFloat, getField, toFloat, dSupDose0]
  exact ⟨validate_sup_dose0, hdd, c4_daily_dose_zero dSupDose0 validate_sup_dose0 hdd⟩

/-- C5: the supplement scenario input (purchasePrice 10, fxRate 50,
weightGrams 30, count 60, dailyDose 2, all five categorical fields at their
neutral values) yields baseCost 500, totalCost 1147, finalPrice 1600,
profit 453, margin 28.3. -/
theorem c5_supplement_scenario :
    calculate_supplement_price dSupEx = .ok ⟨500, 1147, 1600, 453, 28.3⟩ := by
  rw [sup_scenario_eval]
  norm_num

/-- C6: the device scenario input (purchasePrice 100, fxRate 50, dimensions
20x20x20 cm, weight 5 kg, neutral categorical values) yields baseCost 5000,
totalCost 65000, finalPrice 74750, profit 9750, margin 13.0. -/
theorem c6_device_scenario :
    calculate_device_price dDevEx = .ok ⟨5000, 65000, 74750, 9750, 13.0⟩ := by
  rw [dev_scenario_eval]
  norm_num

/-- C9: on every validated supplement input the unrounded total cost is at
least 380 (the 380 constant plus non-negative terms), hence the final price
is at least 550 and strictly positive, so the margin division in the
supplement formula never divides by zero and the formula returns a
breakdown. -/
theorem c9_margin_division_safe (d : Data) (p fx w c dd : ℚ)
    (hv : validate_supplement_inputs d = .ok ())
    (hp : reqFloat d "purchasePrice" 0 = .ok p)
    (hfx : reqFloat d "fxRate" 50 = .ok fx)
    (hw : reqFloat d "weightGrams" 0 = .ok w)
    (hc : reqFloat d "count" 0 = .ok c)
    (hdd : reqFloat d "dailyDose" 1 = .ok dd) :
    380 ≤ supplement_total_cost p fx w c dd (supplement_xfactor d)
    ∧ ∃ b, calculate_supplement_price d = .ok b ∧ 550 ≤ b.finalPrice ∧ 0 < b.finalPrice := by
  obtain ⟨p', fx', w', c', dd', b, hp', hfx', hw', hc', hdd', h380, hcalc, hfp, htc, h550⟩ :=
    sup_validated_main hv
  rw [hp'] at hp
  rw [hfx'] at hfx
  rw [hw'] at hw
  rw [hc'] at hc
  rw [hdd'] at hdd
  cases hp
  cases hfx
  cases hw
  cases hc
  cases hdd
  exact ⟨h380, b, hcalc, h550, by linarith⟩

theorem c9_witness :
    validate_supplement_inputs dSupEx = .ok () ∧
    (380 ≤ supplement_total_cost 10 50 30 60 2 (supplement_xfactor dSupEx)
      ∧ ∃ b, calculate_supplement_price dSupEx = .ok b
        ∧ 550 ≤ b.finalPrice ∧ 0 < b.finalPrice) := by
  have h1 : reqFloat dSupEx "purchasePrice" 0 = .ok 10 := by
    simp [reqFloat, getFloat, getField, toFloat, dSupEx]
  have h2 : reqFloat dSupEx "fxRate" 50 = .ok 50 := by
    simp [reqFloat, getFloat, getField, toFloat, dSupEx]
  have h3 : reqFloat dSupEx "weightGrams" 0 = .ok 30 := by
    simp [reqFloat, getFloat, getField, toFloat, dSupEx]
  have h4 : reqFloat dSupEx "count" 0 = .ok 60 := by
    simp [reqFloat, getFloat, getField, toFloat, dSupEx]
  have h5 : reqFloat dSupEx "dailyDose" 1 = .ok 2 := by
    simp [reqFloat, getFloat, getField, toFloat, dSupEx]
  exact ⟨validate_sup_ex,
    c9_margin_division_safe dSupEx 10 50 30 60 2 validate_sup_ex h1 h2 h3 h4 h5⟩

/-! ### C2: rounding-up-to-50 structure of the final price -/

theorem price_from_total_isLeast (t mp : ℚ) :
    isLeastMultipleOf50Ge (t * (1 + mp)) (price_from_total t mp) :=
  ⟨price_from_total_multiple t mp, le_price_from_total t mp,
    fun m hm => price_from_total_least t mp m (by linarith)⟩

theorem sup_round_le_price {t : ℚ} (h : 380 ≤ t) :
    ((roundHalfEven t : ℤ) : ℚ) ≤ price_from_total t 0.37 := by
  have h1 := roundHalfEven_le t
  have h2 := le_price_from_total t 0.37
  nlinarith

theorem dev_round_le_price {t : ℚ} (h0 : 0 ≤ t)
    (hne : price_from_total t 0.15 ≠ 0) :
    ((roundHalfEven t : ℤ) : ℚ) ≤ price_from_total t 0.15 := by
  rcases eq_or_lt_of_le h0 with heq | hpos
  · exact absurd (heq ▸ price_from_total_zero 0.15) hne
  · have h1 := roundHalfEven_le t
    rcases le_or_lt (10/3) t with hge | hlt
    · have h2 := le_price_from_total t 0.15
      nlinarith
    · have hq : (0:ℚ) < t * (1 + 0.15) / 50 := by positivity
      have hc : 0 < ⌈t * (1 + 0.15) / 50⌉ := Int.ceil_pos.mpr hq
      have hc1 : (1:ℚ) ≤ (⌈t * (1 + 0.15) / 50⌉ : ℚ) := by exact_mod_cast hc
      rw [price_from_total, qceil_eq]
      nlinarith

/-- C2: on every validated input of either category, the breakdown's
`finalPrice` is the smallest multiple of 50 that is at least the unrounded
total cost times `1 + margin_percent` (0.37 for supplement, 0.15 for device);
consequently it is a multiple of 50 and at least the returned (rounded)
`totalCost`. -/
theorem c2_final_price_rounding (d : Data) (b : Breakdown) :
    (∀ p fx w c dd : ℚ, validate_supplement_inputs d = .ok () →
      reqFloat d "purchasePrice" 0 = .ok p → reqFloat d "fxRate" 50 = .ok fx →
      reqFloat d "weightGrams" 0 = .ok w → reqFloat d "count" 0 = .ok c →
      reqFloat d "dailyDose" 1 = .ok dd →
      calculate_supplement_price d = .ok b →
      isLeastMultipleOf50Ge
        (supplement_total_cost p fx w c dd (supplement_xfactor d) * (1 + 0.37))
        b.finalPrice
      ∧ b.totalCost ≤ b.finalPrice)
    ∧ (∀ p fx l w h wt : ℚ, validate_device_inputs d = .ok () →
      reqFloat d "purchasePrice" 0 = .ok p → reqFloat d "fxRate" 50 = .ok fx →
      reqFloat d "lengthCm" 0 = .ok l → reqFloat d "widthCm" 0 = .ok w →
      reqFloat d "heightCm" 0 = .ok h → reqFloat d "weightKg" 0 = .ok wt →
      calculate_device_price d = .ok b →
      isLeastMultipleOf50Ge
        (device_total_cost p fx l w h wt
          (multGet (MULTIPLIERS "maleSupport") (getField d "isMaleSupport"))
          (multGet (MULTIPLIERS "importOrigin") (getField d "importFrom")) * (1 + 0.15))
        b.finalPrice
      ∧ b.totalCost ≤ b.finalPrice) := by
  constructor
  · intro p fx w c dd hv hp hfx hw hc hdd hcalc
    have hall := (validateFields_ok_iff d _).mp hv
    have h0p := reqFloat_nonneg_of_check (hall "purchasePrice" (by simp)) hp
    have h0fx := reqFloat_nonneg_of_check (hall "fxRate" (by simp)) hfx
    have h0w := reqFloat_nonneg_of_check (hall "weightGrams" (by simp)) hw
    rw [calculate_supplement_eq hp hfx hw hc hdd] at hcalc
    obtain ⟨hne, hbd⟩ := finishBreakdown_ok_inv hcalc
    subst hbd
    set t := supplement_total_cost p fx w c dd (supplement_xfactor d) with ht
    have h380 : 380 ≤ t :=
      supplement_total_cost_ge h0p h0fx h0w (le_of_lt (supplement_xfactor_pos d))
    constructor
    · show isLeastMultipleOf50Ge (t * (1 + 0.37)) (pyRound (price_from_total t 0.37) 0)
      rw [pyRound_price_from_total]
      exact price_from_total_isLeast t 0.37
    · show pyRound t 0 ≤ pyRound (price_from_total t 0.37) 0
      rw [pyRound_price_from_total, pyRound_zero]
      exact sup_round_le_price h380
  · intro p fx l w h wt hv hp hfx hl hw hh hwt hcalc
    have hall := (validateFields_ok_iff d _).mp hv
    have h0p := reqFloat_nonneg_of_check (hall "purchasePrice" (by simp)) hp
    have h0fx := reqFloat_nonneg_of_check (hall "fxRate" (by simp)) hfx
    have h0l := reqFloat_nonneg_of_check (hall "lengthCm" (by simp)) hl
    have h0w := reqFloat_nonneg_of_check (hall "widthCm" (by simp)) hw
    have h0h := reqFloat_nonneg_of_check (hall "heightCm" (by simp)) hh
    have h0wt := reqFloat_nonneg_of_check (hall "weightKg" (by simp)) hwt
    rw [calculate_device_eq hp hfx hl hw hh hwt] at hcalc
    obtain ⟨hne, hbd⟩ := finishBreakdown_ok_inv hcalc
    subst hbd
    set t := device_total_cost p fx l w h wt
      (multGet (MULTIPLIERS "maleSupport") (getField d "isMaleSupport"))
      (multGet (MULTIPLIERS "importOrigin") (getField d "importFrom")) with ht
    have h0t : 0 ≤ t :=
      device_total_cost_nonneg h0p h0fx h0l h0w h0h h0wt
        (le_of_lt (multipliers_maleSupport_pos _)) (le_of_lt (multipliers_importOrigin_pos _))
    constructor
    · show isLeastMultipleOf50Ge (t * (1 + 0.15)) (pyRound (price_from_total t 0.15) 0)
      rw [pyRound_price_from_total]
      exact price_from_total_isLeast t 0.15
    · show pyRound t 0 ≤ pyRound (price_from_total t 0.15) 0
      rw [pyRound_price_from_total, pyRound_zero]
      exact dev_round_le_price h0t hne

theorem c2_witness :
    validate_supplement_inputs dSupEx = .ok () ∧
    calculate_supplement_price dSupEx = .ok ⟨500, 1147, 1600, 453, 283/10⟩ ∧
    (isLeastMultipleOf50Ge
        (supplement_total_cost 10 50 30 60 2 (supplement_xfactor dSupEx) * (1 + 0.37))
        ((⟨500, 1147, 1600, 453, 283/10⟩ : Breakdown).finalPrice)
      ∧ (⟨500, 1147, 1600, 453, 283/10⟩ : Breakdown).totalCost ≤
        (⟨500, 1147, 1600, 453, 283/10⟩ : Breakdown).finalPrice) := by
  have h1 : reqFloat dSupEx "purchasePrice" 0 = .ok 10 := by
    simp [reqFloat, getFloat, getField, toFloat, dSupEx]
  have h2 : reqFloat dSupEx "fxRate" 50 = .ok 50 := by
    simp [reqFloat, getFloat, getField, toFloat, dSupEx]
  have h3 : reqFloat dSupEx "weightGrams" 0 = .ok 30 := by
    simp [reqFloat, getFloat, getField, toFloat, dSupEx]
  have h4 : reqFloat dSupEx "count" 0 = .ok 60 := by
    simp [reqFloat, getFloat, getField, toFloat, dSupEx]
  have h5 : reqFloat dSupEx "dailyDose" 1 = .ok 2 := by
    simp [reqFloat, getFloat, getField, toFloat, dSupEx]
  exact ⟨validate_sup_ex, sup_scenario_eval,
    (c2_final_price_rounding dSupEx ⟨500, 1147, 1600, 453, 283/10⟩).1
      10 50 30 60 2 validate_sup_ex h1 h2 h3 h4 h5 sup_scenario_eval⟩

/-- C3: the validators accept exactly those payloads in which every required
field (five for supplement, six for device) is present, interprets as a
number (numeric values directly, numeric strings through `float` parsing),
and is non-negative; any other payload raises `ValueError`.  Numeric strings
such as `"12.5"` interpret as their value, and non-numeric strings such as
`"abc"` are rejected by the `float` coercion. -/
theorem c3_validator_contract :
    (∀ d : Data,
      (validate_supplement_inputs d = .ok () ↔
        ∀ f ∈ ["purchasePrice", "fxRate", "weightGrams", "count", "dailyDose"],
          ∃ q, 0 ≤ q ∧ (getField d f).bind toFloat = some q)
      ∧ (validate_device_inputs d = .ok () ↔
        ∀ f ∈ ["purchasePrice", "fxRate", "lengthCm", "widthCm", "heightCm", "weightKg"],
          ∃ q, 0 ≤ q ∧ (getField d f).bind toFloat = some q)
      ∧ (validate_supplement_inputs d = .ok () ∨
          ∃ m, validate_supplement_inputs d = .error m)
      ∧ (validate_device_inputs d = .ok () ∨
          ∃ m, validate_device_inputs d = .error m))
    ∧ toFloat (.str "12.5") = some (25/2) ∧ toFloat (.str "abc") = none := by
  refine ⟨fun d => ⟨?_, ?_, ?_, ?_⟩, ?_, ?_⟩
  · rw [validate_supplement_inputs, validateFields_ok_iff]
    simp only [checkNumericField_ok_iff]
  · rw [validate_device_inputs, validateFields_ok_iff]
    simp only [checkNumericField_ok_iff]
  · cases h : validate_supplement_inputs d with
    | ok u => cases u; exact Or.inl rfl
    | error m => exact Or.inr ⟨m, rfl⟩
  · cases h : validate_device_inputs d with
    | ok u => cases u; exact Or.inl rfl
    | error m => exact Or.inr ⟨m, rfl⟩
  · have hp : parseDecParts "12.5" = some (false, 12, 5, 1) := by decide
    simp only [toFloat, parseFloat, hp, Option.map_some']
    norm_num
  · have hp : parseDecParts "abc" = none := by decide
    simp only [toFloat, parseFloat, hp, Option.map_none']

/-- C8: a payload whose `category` field is present but is neither the tag
`"supplement"` nor `"device"` is answered with the invalid-category
rejection, whatever the rest of the payload contains — neither validator nor
formula output can reach the response. -/
theorem c8_unknown_category_rejected (d : Data) (v : JValue)
    (hv : getField d "category" = some v)
    (h1 : v ≠ JValue.str "supplement") (h2 : v ≠ JValue.str "device") :
    handle_calculate d = .invalidCategory := by
  have hne : d ≠ [] := by
    intro h
    rw [h] at hv
    simp [getField] at hv
  unfold handle_calculate
  rw [if_neg hne]
  simp only [hv, Option.getD_some]
  rw [if_pos ⟨h1, h2⟩]

theorem c8_witness :
    getField [("category", JValue.str "food")] "category" = some (JValue.str "food") ∧
    JValue.str "food" ≠ JValue.str "supplement" ∧
    JValue.str "food" ≠ JValue.str "device" ∧
    handle_calculate [("category", JValue.str "food")] = .invalidCategory := by
  refine ⟨by simp [getField], by simp, by simp, ?_⟩
  exact c8_unknown_category_rejected _ (JValue.str "food")
    (by simp [getField]) (by simp) (by simp)

/-- C10 (counterexample): the claim "every payload with no category field
defaults to supplement and proceeds with supplement validation" fails on the
empty payload: `handle_calculate` rejects it as "no input data" before the
category default applies, instead of running the supplement branch (which
would report the missing `purchasePrice`). -/
theorem c10_counterexample :
    getField ([] : Data) "category" = none ∧
    handle_calculate [] = .noData ∧
    handle_calculate [] ≠ supplement_branch [] := by
  refine ⟨rfl, rfl, ?_⟩
  have hsb : supplement_branch ([] : Data) =
      .validationFailed "Missing required field: purchasePrice" := by
    simp [supplement_branch, validate_supplement_inputs, validateFields,
      checkNumericField, getField, exbind_error]
  rw [show handle_calculate ([] : Data) = .noData from rfl, hsb]
  simp

/-- C10 (amended): every NON-EMPTY payload with no `category` field is not
rejected for a missing category: the category defaults to `"supplement"` and
the request is handled by the supplement branch (supplement validation, then
the supplement formula). -/
theorem c10_amended_default_category (d : Data) (hne : d ≠ [])
    (hcat : getField d "category" = none) :
    handle_calculate d = supplement_branch d
    ∧ handle_calculate d ≠ .invalidCategory
    ∧ handle_calculate d ≠ .noData := by
  have hmain : handle_calculate d = supplement_branch d := by
    unfold handle_calculate
    rw [if_neg hne]
    simp only [hcat, Option.getD_none]
    rw [if_neg (by simp)]
    simp
  have hnot : supplement_branch d ≠ .invalidCategory ∧ supplement_branch d ≠ .noData := by
    unfold supplement_branch
    constructor
    · split
      · simp
      · split <;> simp
    · split
      · simp
      · split <;> simp
  exact ⟨hmain, hmain ▸ hnot.1, hmain ▸ hnot.2⟩

theorem c10_witness :
    ([("purchasePrice", JValue.num 1)] : Data) ≠ [] ∧
    getField [("purchasePrice", JValue.num 1)] "category" = none ∧
    (handle_calculate [("purchasePrice", JValue.num 1)] =
        supplement_branch [("purchasePrice", JValue.num 1)]
      ∧ handle_calculate [("purchasePrice", JValue.num 1)] ≠ .invalidCategory
      ∧ handle_calculate [("purchasePrice", JValue.num 1)] ≠ .noData) := by
  refine ⟨by simp, by simp [getField], ?_⟩
  exact c10_amended_default_category _ (by simp) (by simp [getField])

/-! ### C7: unknown categorical values are neutral -/

theorem getField_set_erase_ne (d : Data) (attr f : String) (v : JValue) (h : ¬f = attr) :
    getField (setField d attr v) f = getField (eraseField d attr) f := by
  rw [getField_setField, getField_eraseField, if_neg h, if_neg h]

theorem reqFloat_set_erase (d : Data) (attr : String) (v : JValue) (f : String) (c : ℚ)
    (h : ¬f = attr) :
    reqFloat (setField d attr v) f c = reqFloat (eraseField d attr) f c := by
  unfold reqFloat getFloat
  rw [getField_set_erase_ne d attr f v h]

/-- C7: for any payload, a categorical value that is not a key of the
relevant multiplier table yields the neutral multiplier 1 (never an error),
and the formula output on the payload with that field set to the unknown
value equals the output on the payload with the field omitted — for each of
the five supplement attributes, and for the two device attributes. -/
theorem c7_unknown_categorical_neutral (d : Data) (v : String) :
    (v ∉ (MULTIPLIERS "productShape").map Prod.fst →
      multGet (MULTIPLIERS "productShape") (some (.str v)) = 1 ∧
      calculate_supplement_price (setField d "productShape" (.str v)) =
        calculate_supplement_price (eraseField d "productShape"))
    ∧ (v ∉ (MULTIPLIERS "packingMaterial").map Prod.fst →
      multGet (MULTIPLIERS "packingMaterial") (some (.str v)) = 1 ∧
      calculate_supplement_price (setField d "packingMaterial" (.str v)) =
        calculate_supplement_price (eraseField d "packingMaterial"))
    ∧ (v ∉ (MULTIPLIERS "bottleSize").map Prod.fst →
      multGet (MULTIPLIERS "bottleSize") (some (.str v)) = 1 ∧
      calculate_supplement_price (setField d "bottleSize" (.str v)) =
        calculate_supplement_price (eraseField d "bottleSize"))
    ∧ (v ∉ (MULTIPLIERS "maleSupport").map Prod.fst →
      multGet (MULTIPLIERS "maleSupport") (some (.str v)) = 1 ∧
      calculate_supplement_price (setField d "isMaleSupport" (.str v)) =
        calculate_supplement_price (eraseField d "isMaleSupport") ∧
      calculate_device_price (setField d "isMaleSupport" (.str v)) =
        calculate_device_price (eraseField d "isMaleSupport"))
    ∧ (v ∉ (MULTIPLIERS "importOrigin").map Prod.fst →
      multGet (MULTIPLIERS "importOrigin") (some (.str v)) = 1 ∧
      calculate_supplement_price (setField d "importFrom" (.str v)) =
        calculate_supplement_price (eraseField d "importFrom") ∧
      calculate_device_price (setField d "importFrom" (.str v)) =
        calculate_device_price (eraseField d "importFrom")) := by
  refine ⟨fun hv => ?_, fun hv => ?_, fun hv => ?_, fun hv => ?_, fun hv => ?_⟩
  · have hnone := tableGet_eq_none _ _ hv
    refine ⟨by simp [multGet, hnone], ?_⟩
    have hxf : supplement_xfactor (setField d "productShape" (.str v)) =
        supplement_xfactor (eraseField d "productShape") := by
      simp [supplement_xfactor, getField_setField, getField_eraseField, multGet, hnone]
    have e1 := reqFloat_set_erase d "productShape" (.str v) "purchasePrice" 0 (by decide)
    have e2 := reqFloat_set_erase d "productShape" (.str v) "fxRate" 50 (by decide)
    have e3 := reqFloat_set_erase d "productShape" (.str v) "weightGrams" 0 (by decide)
    have e4 := reqFloat_set_erase d "productShape" (.str v) "count" 0 (by decide)
    have e5 := reqFloat_set_erase d "productShape" (.str v) "dailyDose" 1 (by decide)
    simp only [calculate_supplement_price, e1, e2, e3, e4, e5, hxf]
  · have hnone := tableGet_eq_none _ _ hv
    refine ⟨by simp [multGet, hnone], ?_⟩
    have hxf : supplement_xfactor (setField d "packingMaterial" (.str v)) =
        supplement_xfactor (eraseField d "packingMaterial") := by
      simp [supplement_xfactor, getField_setField, getField_eraseField, multGet, hnone]
    have e1 := reqFloat_set_erase d "packingMaterial" (.str v) "purchasePrice" 0 (by decide)
    have e2 := reqFloat_set_erase d "packingMaterial" (.str v) "fxRate" 50 (by decide)
    have e3 := reqFloat_set_erase d "packingMaterial" (.str v) "weightGrams" 0 (by decide)
    have e4 := reqFloat_set_erase d "packingMaterial" (.str v) "count" 0 (by decide)
    have e5 := reqFloat_set_erase d "packingMaterial" (.str v) "dailyDose" 1 (by decide)
    simp only [calculate_supplement_price, e1, e2, e3, e4, e5, hxf]
  · have hnone := tableGet_eq_none _ _ hv
    refine ⟨by simp [multGet, hnone], ?_⟩
    have hxf : supplement_xfactor (setField d "bottleSize" (.str v)) =
        supplement_xfactor (eraseField d "bottleSize") := by
      simp [supplement_xfactor, getField_setField, getField_eraseField, multGet, hnone]
    have e1 := reqFloat_set_erase d "bottleSize" (.str v) "purchasePrice" 0 (by decide)
    have e2 := reqFloat_set_erase d "bottleSize" (.str v) "fxRate" 50 (by decide)
    have e3 := reqFloat_set_erase d "bottleSize" (.str v) "weightGrams" 0 (by decide)
    have e4 := reqFloat_set_erase d "bottleSize" (.str v) "count" 0 (by decide)
    have e5 := reqFloat_set_erase d "bottleSize" (.str v) "dailyDose" 1 (by decide)
    simp only [calculate_supplement_price, e1, e2, e3, e4, e5, hxf]
  · have hnone := tableGet_eq_none _ _ hv
    refine ⟨by simp [multGet, hnone], ?_, ?_⟩
    · have hxf : supplement_xfactor (setField d "isMaleSupport" (.str v)) =
          supplement_xfactor (eraseField d "isMaleSupport") := by
        simp [supplement_xfactor, getField_setField, getField_eraseField, multGet, hnone]
      have e1 := reqFloat_set_erase d "isMaleSupport" (.str v) "purchasePrice" 0 (by decide)
      have e2 := reqFloat_set_erase d "isMaleSupport" (.str v) "fxRate" 50 (by decide)
      have e3 := reqFloat_set_erase d "isMaleSupport" (.str v) "weightGrams" 0 (by decide)
      have e4 := reqFloat_set_erase d "isMaleSupport" (.str v) "count" 0 (by decide)
      have e5 := reqFloat_set_erase d "isMaleSupport" (.str v) "dailyDose" 1 (by decide)
      simp only [calculate_supplement_price, e1, e2, e3, e4, e5, hxf]
    · have em : multGet (MULTIPLIERS "maleSupport")
            (getField (setField d "isMaleSupport" (.str v)) "isMaleSupport") =
          multGet (MULTIPLIERS "maleSupport")
            (getField (eraseField d "isMaleSupport") "isMaleSupport") := by
        simp [getField_setField, getField_eraseField, multGet, hnone]
      have eo : multGet (MULTIPLIERS "importOrigin")
            (getField (setField d "isMaleSupport" (.str v)) "importFrom") =
          multGet (MULTIPLIERS "importOrigin")
            (getField (eraseField d "isMaleSupport") "importFrom") := by
        simp [getField_setField, getField_eraseField]
      have e1 := reqFloat_set_erase d "isMaleSupport" (.str v) "purchasePrice" 0 (by decide)
      have e2 := reqFloat_set_erase d "isMaleSupport" (.str v) "fxRate" 50 (by decide)
      have e3 := reqFloat_set_erase d "isMaleSupport" (.str v) "lengthCm" 0 (by decide)
      have e4 := reqFloat_set_erase d "isMaleSupport" (.str v) "widthCm" 0 (by decide)
      have e5 := reqFloat_set_erase d "isMaleSupport" (.str v) "heightCm" 0 (by decide)
      have e6 := reqFloat_set_erase d "isMaleSupport" (.str v) "weightKg" 0 (by decide)
      simp only [calculate_device_price, e1, e2, e3, e4, e5, e6, em, eo]
  · have hnone := tableGet_eq_none _ _ hv
    refine ⟨by simp [multGet, hnone], ?_, ?_⟩
    · have hxf : supplement_xfactor (setField d "importFrom" (.str v)) =
          supplement_xfactor (eraseField d "importFrom") := by
        simp [supplement_xfactor, getField_setField, getField_eraseField, multGet, hnone]
      have e1 := reqFloat_set_erase d "importFrom" (.str v) "purchasePrice" 0 (by decide)
      have e2 := reqFloat_set_erase d "importFrom" (.str v) "fxRate" 50 (by decide)
      have e3 := reqFloat_set_erase d "importFrom" (.str v) "weightGrams" 0 (by decide)
      have e4 := reqFloat_set_erase d "importFrom" (.str v) "count" 0 (by decide)
      have e5 := reqFloat_set_erase d "importFrom" (.str v) "dailyDose" 1 (by decide)
      simp only [calculate_supplement_price, e1, e2, e3, e4, e5, hxf]
    · have em : multGet (MULTIPLIERS "maleSupport")
            (getField (setField d "importFrom" (.str v)) "isMaleSupport") =
          multGet (MULTIPLIERS "maleSupport")
            (getField (eraseField d "importFrom") "isMaleSupport") := by
        simp [getField_setField, getField_eraseField]
      have eo : multGet (MULTIPLIERS "importOrigin")
            (getField (setField d "importFrom" (.str v)) "importFrom") =
          multGet (MULTIPLIERS "importOrigin")
            (getField (eraseField d "importFrom") "importFrom") := by
        simp [getField_setField, getField_eraseField, multGet, hnone]
      have e1 := reqFloat_set_erase d "importFrom" (.str v) "purchasePrice" 0 (by decide)
      have e2 := reqFloat_set_erase d "importFrom" (.str v) "fxRate" 50 (by decide)
      have e3 := reqFloat_set_erase d "importFrom" (.str v) "lengthCm" 0 (by decide)
      have e4 := reqFloat_set_erase d "importFrom" (.str v) "widthCm" 0 (by decide)
      have e5 := reqFloat_set_erase d "importFrom" (.str v) "heightCm" 0 (by decide)
      have e6 := reqFloat_set_erase d "importFrom" (.str v) "weightKg" 0 (by decide)
      simp only [calculate_device_price, e1, e2, e3, e4, e5, e6, em, eo]

theorem c7_witness :
    ("Unknown" ∉ (MULTIPLIERS "productShape").map Prod.fst) ∧
    ("Unknown" ∉ (MULTIPLIERS "packingMaterial").map Prod.fst) ∧
    ("Unknown" ∉ (MULTIPLIERS "bottleSize").map Prod.fst) ∧
    ("Unknown" ∉ (MULTIPLIERS "maleSupport").map Prod.fst) ∧
    ("Unknown" ∉ (MULTIPLIERS "importOrigin").map Prod.fst) ∧
    (multGet (MULTIPLIERS "productShape") (some (.str "Unknown")) = 1 ∧
      calculate_supplement_price (setField [] "productShape" (.str "Unknown")) =
        calculate_supplement_price (eraseField [] "productShape")) ∧
    (multGet (MULTIPLIERS "maleSupport") (some (.str "Unknown")) = 1 ∧
      calculate_supplement_price (setField [] "isMaleSupport" (.str "Unknown")) =
        calculate_supplement_price (eraseField [] "isMaleSupport") ∧
      calculate_device_price (setField [] "isMaleSupport" (.str "Unknown")) =
        calculate_device_price (eraseField [] "isMaleSupport")) :=
  ⟨by decide, by decide, by decide, by decide, by decide,
    (c7_unknown_categorical_neutral [] "Unknown").1 (by decide),
    (c7_unknown_categorical_neutral [] "Unknown").2.2.2.1 (by decide)⟩

end PricingApp
